import Mathlib

/-!
Verification of the tms-robot-control safety and motion-control core.

This file gives a shallow embedding, in Lean 4, of the parts of the
repository relevant to the collision-avoidance controller
(src/robot/control/repulsion.py), the pose transformer
(src/robot/control/coordinates.py) and the Elfin wire-protocol client
(src/robot/robots/elfin/elfin_connection_linux.py), together with
theorems settling the specification's claims about them.

Modelling conventions:
* Python floats are modelled as rationals (`ℚ`); every computation the
  claims touch is exact decimal/rational arithmetic, so the embedding
  is faithful on those paths.  The one transcendental call, `np.exp`,
  is modelled as an explicit function parameter `qexp : ℚ → ℚ`; claims
  that need a property of the exponential (only `exp 0 = 1`) take that
  property as a hypothesis.
* Python `None` becomes `Option.none`; code that can raise
  (`KeyError`, `ZeroDivisionError`, `TypeError`, `IndexError`) is
  embedded in `Except String`.
* `dict` configuration objects become association lists with Python
  dict semantics (first-match lookup, in-place value replacement).
-/

/-- A 3-vector of rationals, modelling the `numpy` 3-arrays used for
offsets and brake directions in `repulsion.py`. -/
structure Vec3 where
  x : ℚ
  y : ℚ
  z : ℚ
deriving DecidableEq, Repr

/-- The zero 3-vector, `np.zeros(3)`. -/
def Vec3.zero : Vec3 := ⟨0, 0, 0⟩

/-- Scalar multiplication of a 3-vector, modelling numpy broadcasting
`c * v`. -/
def Vec3.smul (c : ℚ) (v : Vec3) : Vec3 := ⟨c * v.x, c * v.y, c * v.z⟩

/-- Componentwise addition of 3-vectors. -/
def Vec3.add (a b : Vec3) : Vec3 := ⟨a.x + b.x, a.y + b.y, a.z + b.z⟩

theorem Vec3.smul_smul (a b : ℚ) (v : Vec3) :
    Vec3.smul a (Vec3.smul b v) = Vec3.smul (a * b) v := by
  simp [Vec3.smul, mul_assoc]

theorem Vec3.smul_zero_vec (a : ℚ) : Vec3.smul a Vec3.zero = Vec3.zero := by
  simp [Vec3.smul, Vec3.zero]

theorem Vec3.add_zero_vec (v : Vec3) : Vec3.add v Vec3.zero = v := by
  simp [Vec3.add, Vec3.zero]

theorem Vec3.one_smul_vec (v : Vec3) : Vec3.smul 1 v = v := by
  simp [Vec3.smul]

/-- Python `dict` with string keys and numeric values, as used for
`RepulsionField.cfg`. -/
def Dict : Type := List (String × ℚ)

/-- Dictionary lookup (`d[k]` / `d.get(k)`): value of the first entry
with the given key. -/
def dlookup : Dict → String → Option ℚ
  | [], _ => none
  | (k₀, v₀) :: rest, k => if k₀ = k then some v₀ else dlookup rest k

/-- Python `k in d`. -/
def dmember (d : Dict) (k : String) : Bool := (dlookup d k).isSome

/-- Python `d[k] = v` for a key already present: replace the value of
the first entry with the given key (a no-op when the key is absent,
which matches `update_config`, where assignment is guarded by
`key in self.cfg`). -/
def dset : Dict → String → ℚ → Dict
  | [], _, _ => []
  | (k₀, v₀) :: rest, k, v =>
    if k₀ = k then (k, v) :: rest else (k₀, v₀) :: dset rest k v

theorem dlookup_dset_ne (d : Dict) (k k' : String) (v : ℚ) (h : k' ≠ k) :
    dlookup (dset d k v) k' = dlookup d k' := by
  induction d with
  | nil => rfl
  | cons p rest ih =>
    obtain ⟨k₀, v₀⟩ := p
    by_cases hk : k₀ = k
    · subst hk
      simp [dset, dlookup, (Ne.symm h)]
    · simp [dset, dlookup, hk]
      by_cases hk' : k₀ = k' <;> simp [hk', ih]

theorem dlookup_dset_self (d : Dict) (k : String) (v : ℚ) :
    dlookup (dset d k v) k = if dmember d k then some v else none := by
  induction d with
  | nil => simp [dset, dlookup, dmember]
  | cons p rest ih =>
    obtain ⟨k₀, v₀⟩ := p
    by_cases hk : k₀ = k
    · subst hk
      simp [dset, dlookup, dmember]
    · simp [dset, dlookup, dmember, hk] at ih ⊢
      exact ih

theorem dmember_dset (d : Dict) (k k' : String) (v : ℚ) :
    dmember (dset d k v) k' = dmember d k' := by
  by_cases h : k' = k
  · subst h
    simp [dmember, dlookup_dset_self]
    by_cases hm : dmember d k' <;> simp_all [dmember]
  · simp [dmember, dlookup_dset_ne d k k' v h]

/-- State of a `RepulsionField` instance (src/robot/control/repulsion.py):
the configuration dictionary, the live safety margin (an instance
variable decoupled from the dictionary entry), the last coil distance,
the smoothed-offset memory `_ema_offset` and the externally supplied
brake direction. -/
structure RepulsionField where
  cfg : Dict
  safety_margin : Option ℚ
  distance_coils : Option ℚ
  ema_offset : Vec3
  brake_direction : Vec3

/-- Approach-zone brake magnitude (repulsion.py lines 77–78):
`strength * ((safety_margin - distance) / (safety_margin - working_distance)) ** 2`,
with Python's `ZeroDivisionError` made explicit when the denominator is
zero. -/
def approachMagnitude (strength sm wd d : ℚ) : Except String ℚ :=
  if sm - wd = 0 then Except.error "ZeroDivisionError in approach zone"
  else Except.ok (strength * ((sm - d) / (sm - wd)) ^ 2)

/-- Working-zone brake magnitude (repulsion.py lines 83–84):
`strength * np.exp(2 * (1 - distance / working_distance))`, with
Python's `ZeroDivisionError` made explicit when `working_distance` is
zero.  `qexp` models `np.exp`. -/
def workingMagnitude (qexp : ℚ → ℚ) (strength wd d : ℚ) : Except String ℚ :=
  if wd = 0 then Except.error "ZeroDivisionError in working zone"
  else Except.ok (strength * qexp (2 * (1 - d / wd)))

/-- Raw braking offset (repulsion.py lines 57–90): zero unless the
safety margin and the distance are both known and the distance is below
the margin, in which case the zone-dependent magnitude is applied along
the brake direction and scaled by `dt`. -/
def raw_offset_calc (qexp : ℚ → ℚ) (rf : RepulsionField)
    (distance : Option ℚ) (dt : ℚ) : Except String Vec3 :=
  match rf.safety_margin, distance with
  | some sm, some d =>
    if d < sm then
      let wd := (dlookup rf.cfg "working_distance").getD 15
      match dlookup rf.cfg "strength" with
      | none => Except.error "KeyError"
      | some strength =>
        (if wd < d then approachMagnitude strength sm wd d
         else workingMagnitude qexp strength wd d).map
          (fun mag => Vec3.smul (mag * dt) rf.brake_direction)
    else Except.ok Vec3.zero
  | _, _ => Except.ok Vec3.zero

/-- EMA smoothing step (repulsion.py lines 92–96):
`_ema_offset = ema * _ema_offset + (1 - ema) * raw_offset`, returned
together with `stop_now = False` and the updated instance state. -/
def ema_step (rf : RepulsionField) (raw_offset : Vec3) :
    Except String (Vec3 × Bool × RepulsionField) :=
  match dlookup rf.cfg "ema" with
  | none => Except.error "KeyError"
  | some e =>
    let newOff := Vec3.add (Vec3.smul e rf.ema_offset)
      (Vec3.smul (1 - e) raw_offset)
    Except.ok (newOff, false, { rf with ema_offset := newOff })

/-- Embedding of `RepulsionField.compute_offset` (repulsion.py lines 40–96).  The
returned triple is (offset, stop_now, updated instance state).  The
emergency-stop check short-circuits: `cfg['stop_distance']` is only
read when the distance is known, and a stop returns the brake
direction with the instance state untouched. -/
def compute_offset (qexp : ℚ → ℚ) (rf : RepulsionField)
    (distance : Option ℚ) (dt : ℚ) :
    Except String (Vec3 × Bool × RepulsionField) :=
  let stop_check : Except String Bool :=
    match distance with
    | none => Except.ok false
    | some d =>
      match dlookup rf.cfg "stop_distance" with
      | none => Except.error "KeyError"
      | some sd => Except.ok (decide (d < sd))
  match stop_check with
  | Except.error e => Except.error e
  | Except.ok true => Except.ok (rf.brake_direction, true, rf)
  | Except.ok false =>
    match raw_offset_calc qexp rf distance dt with
    | Except.error e => Except.error e
    | Except.ok raw => ema_step rf raw

/-- A concrete configuration used to exercise the theorems: the
default values visible in the repository's test scripts
(strength 240, safety margin 65) together with the spec's concrete
scenario values for the remaining fields. -/
def testCfg : Dict :=
  [("strength", 240), ("safety_margin", 65), ("stop_distance", 20),
   ("ema", 3 / 10), ("working_distance", 15)]

/-- A concrete controller state built over `testCfg`, with zero
smoothed offset and brake direction (1, 0, 0). -/
def testField : RepulsionField :=
  { cfg := testCfg
    safety_margin := some 65
    distance_coils := none
    ema_offset := Vec3.zero
    brake_direction := ⟨1, 0, 0⟩ }

/-- The distance input neither triggers the emergency stop nor the
repulsion branch: it is unknown (`None`), or it is at least the
configured stop distance and at least the live safety margin. -/
def noRepulse (rf : RepulsionField) (d : Option ℚ) : Bool :=
  match d with
  | none => true
  | some x =>
    (match dlookup rf.cfg "stop_distance" with
     | some sd => decide (sd ≤ x)
     | none => false) &&
    (match rf.safety_margin with
     | some m => decide (m ≤ x)
     | none => false)

/-- Single-call behaviour on a `noRepulse` input: no error, no stop,
raw offset zero, smoothed offset multiplied by the EMA factor. -/
theorem compute_offset_decay_step (qexp : ℚ → ℚ) (rf : RepulsionField)
    (e : ℚ) (d : Option ℚ) (dt : ℚ)
    (he : dlookup rf.cfg "ema" = some e) (hd : noRepulse rf d = true) :
    compute_offset qexp rf d dt =
      Except.ok (Vec3.smul e rf.ema_offset, false,
        { rf with ema_offset := Vec3.smul e rf.ema_offset }) := by
  cases d with
  | none =>
    cases hsm : rf.safety_margin <;>
      simp [compute_offset, raw_offset_calc, ema_step, he, hsm,
        Vec3.smul_zero_vec, Vec3.add_zero_vec]
  | some x =>
    simp only [noRepulse, Bool.and_eq_true] at hd
    obtain ⟨h₁, h₂⟩ := hd
    cases hsd : dlookup rf.cfg "stop_distance" with
    | none => rw [hsd] at h₁; exact absurd h₁ (by simp)
    | some sd =>
      rw [hsd] at h₁
      cases hsm : rf.safety_margin with
      | none => rw [hsm] at h₂; exact absurd h₂ (by simp)
      | some m =>
        rw [hsm] at h₂
        simp only [decide_eq_true_eq] at h₁ h₂
        simp [compute_offset, raw_offset_calc, ema_step, he, hsd, hsm,
          not_lt.mpr h₁, not_lt.mpr h₂,
          Vec3.smul_zero_vec, Vec3.add_zero_vec]

/-- Fold `compute_offset` over a list of (distance, dt) inputs,
threading the instance state; errors abort the run. -/
def runCalls (qexp : ℚ → ℚ) :
    RepulsionField → List (Option ℚ × ℚ) → Except String RepulsionField
  | rf, [] => Except.ok rf
  | rf, p :: rest =>
    match compute_offset qexp rf p.1 p.2 with
    | Except.error e => Except.error e
    | Except.ok r => runCalls qexp r.2.2 rest

theorem runCalls_decay (qexp : ℚ → ℚ) :
    ∀ (inputs : List (Option ℚ × ℚ)) (rf : RepulsionField) (e : ℚ),
      dlookup rf.cfg "ema" = some e →
      (∀ p ∈ inputs, noRepulse rf p.1 = true) →
      runCalls qexp rf inputs =
        Except.ok { rf with
          ema_offset := Vec3.smul (e ^ inputs.length) rf.ema_offset } := by
  intro inputs
  induction inputs with
  | nil =>
    intro rf e he _
    simp [runCalls, Vec3.one_smul_vec]
  | cons p rest ih =>
    intro rf e he hall
    have hstep := compute_offset_decay_step qexp rf e p.1 p.2 he
      (hall p (by simp))
    have hrest : ∀ q ∈ rest,
        noRepulse { rf with ema_offset := Vec3.smul e rf.ema_offset } q.1
          = true := by
      intro q hq
      exact hall q (by simp [hq])
    have := ih { rf with ema_offset := Vec3.smul e rf.ema_offset } e he hrest
    simp only [runCalls, hstep, this, List.length_cons]
    rw [Vec3.smul_smul, pow_succ]

/-- C3: on every input that is unknown or at least both margins,
`compute_offset` does not raise, returns `stop_now = false`, and
returns a smoothed offset equal to `ema` times the previous smoothed
offset (the raw offset being zero); consequently, after n consecutive
such calls the smoothed offset equals `ema ^ n` times its initial
value, decaying geometrically toward zero. -/
theorem compute_offset_no_repulse_decay (qexp : ℚ → ℚ)
    (rf : RepulsionField) (e : ℚ) (he : dlookup rf.cfg "ema" = some e) :
    (∀ (d : Option ℚ) (dt : ℚ), noRepulse rf d = true →
       compute_offset qexp rf d dt =
         Except.ok (Vec3.smul e rf.ema_offset, false,
           { rf with ema_offset := Vec3.smul e rf.ema_offset })) ∧
    (∀ inputs : List (Option ℚ × ℚ),
       (∀ p ∈ inputs, noRepulse rf p.1 = true) →
       runCalls qexp rf inputs =
         Except.ok { rf with
           ema_offset := Vec3.smul (e ^ inputs.length) rf.ema_offset }) :=
  ⟨fun d dt hd => compute_offset_decay_step qexp rf e d dt he hd,
   fun inputs hall => runCalls_decay qexp inputs rf e he hall⟩

/-- A controller state with a nonzero smoothed offset, used to
exercise the geometric decay. -/
def decayField : RepulsionField :=
  { cfg := testCfg
    safety_margin := some 65
    distance_coils := none
    ema_offset := ⟨1, 2, 3⟩
    brake_direction := ⟨1, 0, 0⟩ }

theorem compute_offset_no_repulse_decay_witness :
    runCalls (fun q => q) decayField [(none, 1), (some 100, 1), (some 65, 2)]
      = Except.ok { decayField with
          ema_offset := Vec3.smul ((3 / 10) ^ 3) decayField.ema_offset } :=
  (compute_offset_no_repulse_decay (fun q => q) decayField (3 / 10)
    (by simp [decayField, testCfg, dlookup])).2
    [(none, 1), (some 100, 1), (some 65, 2)]
    (by
      intro p hp
      fin_cases hp <;> simp [noRepulse, decayField, testCfg, dlookup] <;>
        norm_num)

/-- The raw-offset computation never hits the approach-zone division
by zero: the approach branch runs only when
`working_distance < distance < safety_margin`, which forces the
denominator `safety_margin - working_distance` to be strictly
positive. -/
theorem raw_offset_calc_no_approach_err (qexp : ℚ → ℚ)
    (rf : RepulsionField) (d : Option ℚ) (dt : ℚ) :
    raw_offset_calc qexp rf d dt ≠
      Except.error "ZeroDivisionError in approach zone" := by
  cases hsm : rf.safety_margin with
  | none => cases d <;> simp [raw_offset_calc, hsm]
  | some sm =>
    cases d with
    | none => simp [raw_offset_calc, hsm]
    | some x =>
      simp only [raw_offset_calc, hsm]
      by_cases hx : x < sm
      · simp only [hx, if_true]
        cases hstr : dlookup rf.cfg "strength" with
        | none => simp
        | some s =>
          simp only
          by_cases hwd : (dlookup rf.cfg "working_distance").getD 15 < x
          · have hne : sm - (dlookup rf.cfg "working_distance").getD 15 ≠ 0 :=
              sub_ne_zero.mpr (ne_of_gt (lt_trans hwd hx))
            simp [hwd, approachMagnitude, hne, Except.map]
          · rw [if_neg hwd]
            unfold workingMagnitude
            by_cases hz : (dlookup rf.cfg "working_distance").getD 15 = 0 <;>
              simp [hz, Except.map]
      · simp [hx]

/-- Every error value produced by `ema_step` is the `KeyError` for a
missing `ema` key. -/
theorem ema_step_err (rf : RepulsionField) (raw : Vec3) (s : String)
    (h : ema_step rf raw = Except.error s) : s = "KeyError" := by
  unfold ema_step at h
  cases he : dlookup rf.cfg "ema" <;> rw [he] at h <;>
    simp_all

/-- Every error value produced by `compute_offset` is either a
`KeyError` or an error of the raw-offset computation. -/
theorem compute_offset_err (qexp : ℚ → ℚ) (rf : RepulsionField)
    (d : Option ℚ) (dt : ℚ) (s : String)
    (h : compute_offset qexp rf d dt = Except.error s) :
    s = "KeyError" ∨
      raw_offset_calc qexp rf d dt = Except.error s := by
  unfold compute_offset at h
  cases d with
  | none =>
    simp only at h
    cases hraw : raw_offset_calc qexp rf none dt <;> rw [hraw] at h <;>
      simp_all
    exact ema_step_err rf _ s h
  | some x =>
    cases hsd : dlookup rf.cfg "stop_distance" with
    | none => simp [hsd] at h; exact Or.inl h.symm
    | some sd =>
      simp only [hsd] at h
      by_cases hlt : x < sd
      · simp [hlt] at h
      · rw [decide_eq_false hlt] at h
        cases hraw : raw_offset_calc qexp rf (some x) dt <;>
          rw [hraw] at h <;> simp_all
        exact ema_step_err rf _ s h

/-- C4: for a configuration whose live safety margin is at most the
working distance, `compute_offset` never performs the approach-zone
division with a zero denominator; every distance below the safety
margin is handled by the working-zone branch, so the denominator
`safety_margin − working_distance` is only evaluated when it is
strictly positive. -/
theorem compute_offset_no_approach_div_zero (qexp : ℚ → ℚ)
    (rf : RepulsionField) (sm : ℚ) (hsm : rf.safety_margin = some sm)
    (hle : sm ≤ (dlookup rf.cfg "working_distance").getD 15) :
    (∀ (d : Option ℚ) (dt : ℚ),
       compute_offset qexp rf d dt ≠
         Except.error "ZeroDivisionError in approach zone") ∧
    (∀ (d dt : ℚ), d < sm →
       raw_offset_calc qexp rf (some d) dt =
         match dlookup rf.cfg "strength" with
         | none => Except.error "KeyError"
         | some strength =>
           (workingMagnitude qexp strength
               ((dlookup rf.cfg "working_distance").getD 15) d).map
             (fun mag => Vec3.smul (mag * dt) rf.brake_direction)) := by
  constructor
  · intro d dt h
    rcases compute_offset_err qexp rf d dt _ h with h' | h'
    · simp at h'
    · exact raw_offset_calc_no_approach_err qexp rf d dt h'
  · intro d dt hd
    have hwd : ¬ ((dlookup rf.cfg "working_distance").getD 15 < d) :=
      not_lt.mpr (le_trans (le_of_lt hd) hle)
    simp [raw_offset_calc, hsm, hd, hwd]

/-- A controller state whose live safety margin equals the working
distance (both 15), exercising the margin-below-working-distance
guard. -/
def tightField : RepulsionField :=
  { cfg := testCfg
    safety_margin := some 15
    distance_coils := none
    ema_offset := Vec3.zero
    brake_direction := ⟨1, 0, 0⟩ }

theorem compute_offset_no_approach_div_zero_witness :
    tightField.safety_margin = some 15 ∧
    (15 : ℚ) ≤ (dlookup tightField.cfg "working_distance").getD 15 ∧
    compute_offset (fun q => q) tightField (some 30) 1 ≠
      Except.error "ZeroDivisionError in approach zone" :=
  ⟨rfl, by simp [tightField, testCfg, dlookup],
   (compute_offset_no_approach_div_zero (fun q => q) tightField 15 rfl
     (by simp [tightField, testCfg, dlookup])).1 (some 30) 1⟩

/-- Input to `update_config`: either a Python `dict` (a list of
key/value pairs, keys unique) or a value of some other type, which
fails the `isinstance(config_updates, dict)` check. -/
inductive ConfigInput where
  | dict (kvs : List (String × ℚ))
  | notDict

/-- Body of the `update_config` loop (repulsion.py lines 26–36) for a
single key/value pair: keys present in `cfg` are updated (with the
`safety_margin` instance variable refreshed for that key); unknown
keys are logged and ignored. -/
def applyKV (rf : RepulsionField) (kv : String × ℚ) : RepulsionField :=
  if dmember rf.cfg kv.1 then
    let rf₁ := { rf with cfg := dset rf.cfg kv.1 kv.2 }
    if kv.1 = "safety_margin" then { rf₁ with safety_margin := some kv.2 }
    else rf₁
  else rf

/-- Embedding of `RepulsionField.update_config` (repulsion.py lines 13–38):
non-dict inputs are rejected wholesale; dict inputs are folded
key-by-key through `applyKV`. -/
def update_config (rf : RepulsionField) (config_updates : ConfigInput) :
    RepulsionField :=
  match config_updates with
  | ConfigInput.notDict => rf
  | ConfigInput.dict kvs => kvs.foldl applyKV rf

theorem applyKV_cfg (rf : RepulsionField) (kv : String × ℚ) :
    (applyKV rf kv).cfg =
      if dmember rf.cfg kv.1 then dset rf.cfg kv.1 kv.2 else rf.cfg := by
  unfold applyKV
  by_cases hm : dmember rf.cfg kv.1
  · rw [if_pos hm, if_pos hm]
    by_cases hs : kv.1 = "safety_margin"
    · rw [if_pos hs]
    · rw [if_neg hs]
  · rw [if_neg hm, if_neg hm]

theorem applyKV_cfg_lookup_ne (rf : RepulsionField) (kv : String × ℚ)
    (k : String) (h : k ≠ kv.1) :
    dlookup (applyKV rf kv).cfg k = dlookup rf.cfg k := by
  rw [applyKV_cfg]
  by_cases hm : dmember rf.cfg kv.1 <;>
    simp [hm, dlookup_dset_ne rf.cfg kv.1 k kv.2 h]

theorem applyKV_cfg_member (rf : RepulsionField) (kv : String × ℚ)
    (k : String) :
    dmember (applyKV rf kv).cfg k = dmember rf.cfg k := by
  rw [applyKV_cfg]
  by_cases hm : dmember rf.cfg kv.1 <;> simp [hm, dmember_dset]

theorem foldl_applyKV_member (kvs : List (String × ℚ)) :
    ∀ (rf : RepulsionField) (k : String),
      dmember (kvs.foldl applyKV rf).cfg k = dmember rf.cfg k := by
  induction kvs with
  | nil => intro rf k; rfl
  | cons kv rest ih =>
    intro rf k
    rw [List.foldl_cons, ih, applyKV_cfg_member]

theorem foldl_applyKV_lookup_not_key (kvs : List (String × ℚ)) :
    ∀ (rf : RepulsionField) (k : String), k ∉ kvs.map Prod.fst →
      dlookup (kvs.foldl applyKV rf).cfg k = dlookup rf.cfg k := by
  induction kvs with
  | nil => intro rf k _; rfl
  | cons kv rest ih =>
    intro rf k hk
    simp only [List.map_cons, List.mem_cons, not_or] at hk
    rw [List.foldl_cons, ih _ k hk.2, applyKV_cfg_lookup_ne rf kv k hk.1]

theorem foldl_applyKV_lookup_mem (kvs : List (String × ℚ)) :
    ∀ (rf : RepulsionField) (k : String) (v : ℚ),
      (kvs.map Prod.fst).Nodup → (k, v) ∈ kvs →
      dmember rf.cfg k = true →
      dlookup (kvs.foldl applyKV rf).cfg k = some v := by
  induction kvs with
  | nil => intro rf k v _ hmem _; exact absurd hmem (by simp)
  | cons kv rest ih =>
    intro rf k v hnd hmem hm
    simp only [List.map_cons, List.nodup_cons] at hnd
    rcases List.mem_cons.mp hmem with heq | hmem'
    · subst heq
      have hk : k ∉ rest.map Prod.fst := hnd.1
      rw [List.foldl_cons, foldl_applyKV_lookup_not_key rest _ k hk]
      rw [applyKV_cfg]
      simp [hm, dlookup_dset_self]
    · have hne : k ≠ kv.1 := by
        intro heq
        exact hnd.1 (heq ▸ (List.mem_map.mpr ⟨(k, v), hmem', heq ▸ rfl⟩))
      rw [List.foldl_cons]
      exact ih _ k v hnd.2 hmem'
        (by rw [applyKV_cfg_member, hm])

/-- C7: for every dict update, each unrecognized key is rejected
individually (the key set of `cfg` never grows, so its lookup stays
`none`) while every recognized key in the same mapping takes effect; a
non-dict input is rejected wholesale with the state unchanged; and in
particular updating with the single unknown key `bogus` leaves the
state unchanged and does not raise. -/
theorem update_config_spec (rf : RepulsionField)
    (kvs : List (String × ℚ)) (hnd : (kvs.map Prod.fst).Nodup) :
    (∀ (k : String) (v : ℚ), (k, v) ∈ kvs → dmember rf.cfg k = true →
       dlookup (update_config rf (ConfigInput.dict kvs)).cfg k = some v) ∧
    (∀ k : String, dmember rf.cfg k = false →
       dlookup (update_config rf (ConfigInput.dict kvs)).cfg k = none) ∧
    update_config rf ConfigInput.notDict = rf ∧
    (dmember rf.cfg "bogus" = false →
       update_config rf (ConfigInput.dict [("bogus", 1)]) = rf) := by
  refine ⟨?_, ?_, rfl, ?_⟩
  · intro k v hmem hm
    exact foldl_applyKV_lookup_mem kvs rf k v hnd hmem hm
  · intro k hm
    have h1 := foldl_applyKV_member kvs rf k
    rw [hm] at h1
    show dlookup (kvs.foldl applyKV rf).cfg k = none
    cases hl : dlookup (kvs.foldl applyKV rf).cfg k with
    | none => rfl
    | some v => rw [dmember, hl] at h1; simp at h1
  · intro hb
    simp [update_config, applyKV, hb]

theorem update_config_spec_witness :
    ((([("strength", 300), ("bogus", 1)] : List (String × ℚ)).map
        Prod.fst).Nodup) ∧
    dlookup (update_config testField
        (ConfigInput.dict [("strength", 300), ("bogus", 1)])).cfg
        "strength" = some 300 ∧
    dlookup (update_config testField
        (ConfigInput.dict [("strength", 300), ("bogus", 1)])).cfg
        "bogus" = none ∧
    update_config testField ConfigInput.notDict = testField ∧
    update_config testField (ConfigInput.dict [("bogus", 1)]) =
      testField := by
  have h := update_config_spec testField [("strength", 300), ("bogus", 1)]
    (by decide)
  refine ⟨by decide, ?_, ?_, h.2.2.1, ?_⟩
  · exact h.1 "strength" 300 (by simp) (by decide)
  · exact h.2.1 "bogus" (by decide)
  · exact (update_config_spec testField [("bogus", 1)] (by decide)).2.2.2
      (by decide)

/-- C5 counterexample: with strength 240, safety margin 65 and working
distance 0 (a configuration satisfying the claim's
`safety_margin > working_distance`), the working-zone formula at
`distance = working_distance` raises a division by zero instead of
yielding the strength; the exponential model used satisfies
`exp 0 = 1`. -/
theorem working_magnitude_zero_wd_counterexample :
    ((fun q : ℚ => q + 1) 0 = 1) ∧ (0 : ℚ) < 65 ∧
    workingMagnitude (fun q => q + 1) 240 0 0 =
      Except.error "ZeroDivisionError in working zone" ∧
    workingMagnitude (fun q => q + 1) 240 0 0 ≠ Except.ok 240 := by
  refine ⟨by norm_num, by norm_num, by simp [workingMagnitude], ?_⟩
  simp [workingMagnitude]

/-- C5 (amended): for every configuration with
`safety_margin > working_distance` and a nonzero working distance, the
brake magnitude at `distance = working_distance` agrees under the
approach-zone formula and the working-zone formula: both yield exactly
the strength (using `exp 0 = 1`). -/
theorem zone_boundary_continuity (qexp : ℚ → ℚ) (s sm wd : ℚ)
    (h1 : wd < sm) (h2 : wd ≠ 0) (h3 : qexp 0 = 1) :
    approachMagnitude s sm wd wd = Except.ok s ∧
    workingMagnitude qexp s wd wd = Except.ok s := by
  have hne : sm - wd ≠ 0 := sub_ne_zero.mpr (ne_of_gt h1)
  constructor
  · simp [approachMagnitude, hne, div_self hne]
  · simp [workingMagnitude, h2, div_self h2, h3]

theorem zone_boundary_continuity_witness :
    (15 : ℚ) < 65 ∧ (15 : ℚ) ≠ 0 ∧ ((fun q : ℚ => q + 1) 0 = 1) ∧
    approachMagnitude 240 65 15 15 = Except.ok 240 ∧
    workingMagnitude (fun q => q + 1) 240 15 15 = Except.ok 240 :=
  ⟨by norm_num, by norm_num, by norm_num,
   (zone_boundary_continuity (fun q => q + 1) 240 65 15 (by norm_num)
     (by norm_num) (by norm_num)).1,
   (zone_boundary_continuity (fun q => q + 1) 240 65 15 (by norm_num)
     (by norm_num) (by norm_num)).2⟩

/-- Possible results of `ElfinConnectionLinux.send`
(elfin_connection_linux.py lines 35–50): a list of payload strings, a
Python boolean, or Python `None` (when `check_status` falls through
both status tokens). -/
inductive SendRet where
  | strs (l : List String)
  | pybool (b : Bool)
  | pynone
deriving DecidableEq, Repr

instance {α β : Type} [DecidableEq α] [DecidableEq β] :
    DecidableEq (Except α β) := fun a b =>
  match a, b with
  | Except.error x, Except.error y =>
    if h : x = y then Decidable.isTrue (by rw [h])
    else Decidable.isFalse (by simp [h])
  | Except.ok x, Except.ok y =>
    if h : x = y then Decidable.isTrue (by rw [h])
    else Decidable.isFalse (by simp [h])
  | Except.error _, Except.ok _ => Decidable.isFalse (by simp)
  | Except.ok _, Except.error _ => Decidable.isFalse (by simp)

/-- Embedding of `ElfinConnectionLinux.check_status` (lines 52–59): reads
`recv_message[1]` (an `IndexError` when the reply is too short);
`"OK"` gives `True`, `"Fail"` gives `False`, anything else falls off
the end of the function, i.e. Python `None`. -/
def check_status (recv_message : List String) :
    Except String (Option Bool) :=
  match recv_message.get? 1 with
  | none => Except.error "IndexError"
  | some status =>
    Except.ok (if status = "OK" then some true
               else if status = "Fail" then some false
               else none)

/-- Embedding of `ElfinConnectionLinux.send` (lines 35–50), as a function of the
already-received comma-split reply fields.  `data` is always a list,
so `type(data) != bool` always holds; when the status is truthy
(`True`) and the reply has more than 3 fields, the payload
`data[2:-1]` is returned, otherwise the status value itself. -/
def send (data : List String) : Except String SendRet :=
  match check_status data with
  | Except.error e => Except.error e
  | Except.ok status =>
    if status = some true ∧ 3 < data.length then
      Except.ok (SendRet.strs ((data.drop 2).dropLast))
    else
      match status with
      | some b => Except.ok (SendRet.pybool b)
      | none => Except.ok SendRet.pynone

/-- Is the character an ASCII digit? -/
def isDigitChar (c : Char) : Bool := 48 ≤ c.toNat && c.toNat ≤ 57

/-- Accumulator value of a digit string (base 10). -/
def natVal : Nat → List Char → Nat
  | acc, [] => acc
  | acc, c :: rest => natVal (acc * 10 + (c.toNat - 48)) rest

/-- Split a character list at the first dot. -/
def splitFrac : List Char → List Char × Option (List Char)
  | [] => ([], none)
  | c :: rest =>
    if c = '.' then ([], some rest)
    else
      let p := splitFrac rest
      (c :: p.1, p.2)

/-- Decimal decomposition of a numeric string: negative flag, integer
part, fractional digits value, and number of fractional digits.
`none` models Python's `ValueError`. -/
def parseDecimal (s : String) : Option (Bool × Nat × Nat × Nat) :=
  let cs := s.data
  let neg := cs.head? = some '-'
  let body := if neg then cs.drop 1 else cs
  match splitFrac body with
  | (ip, none) =>
    if ip ≠ [] ∧ ip.all isDigitChar then some (neg, natVal 0 ip, 0, 0)
    else none
  | (ip, some fp) =>
    if (ip ≠ [] ∨ fp ≠ []) ∧ ip.all isDigitChar ∧ fp.all isDigitChar ∧
        ¬ fp.contains '.' then
      some (neg, natVal 0 ip, natVal 0 fp, fp.length)
    else none

/-- Python `float(s)` restricted to plain decimal text (optional
sign, digits, optional fractional part), the only shape the wire
protocol uses; `none` models `ValueError`. -/
def parseFloat (s : String) : Option ℚ :=
  (parseDecimal s).map (fun p =>
    (if p.1 then -1 else 1) * ((p.2.1 : ℚ) + (p.2.2.1 : ℚ) / 10 ^ p.2.2.2))

/-- Python `[float(s) for s in l]`: parse every field, raising `ValueError`
on the first failure. -/
def floatList : List String → Except String (List ℚ)
  | [] => Except.ok []
  | s :: rest =>
    match parseFloat s with
    | none => Except.error "ValueError"
    | some q => (floatList rest).map (fun qs => q :: qs)

/-- Value returned by `GetCoordinates`: either the parsed float slice
or the falsy `send` result passed through. -/
inductive PyRet where
  | floats (l : List ℚ)
  | ret (r : SendRet)
deriving DecidableEq, Repr

/-- Embedding of `ElfinConnectionLinux.GetCoordinates` (lines 146–162), as a
function of the reply fields: `if coord:` takes the parse path only
for a truthy result (a non-empty string list, or `True`, which is not
iterable and raises); the slice `[6:12]` keeps payload positions
6–11. -/
def GetCoordinates (reply : List String) : Except String PyRet :=
  match send reply with
  | Except.error e => Except.error e
  | Except.ok (SendRet.strs l) =>
    if l = [] then Except.ok (PyRet.ret (SendRet.strs l))
    else
      match floatList l with
      | Except.error e => Except.error e
      | Except.ok qs => Except.ok (PyRet.floats ((qs.drop 6).take 6))
  | Except.ok (SendRet.pybool b) =>
    if b then Except.error "TypeError: bool is not iterable"
    else Except.ok (PyRet.ret (SendRet.pybool b))
  | Except.ok SendRet.pynone => Except.ok (PyRet.ret SendRet.pynone)

/-- Modelled from the spec: the `MotionState` enumeration
`{FREE_TO_MOVE, IN_MOTION, ERROR}` (robot/robots/elfin/motion_state.py
is referenced by the protocol client but is not under src/). -/
inductive MotionState where
  | FREE_TO_MOVE
  | IN_MOTION
  | ERROR
deriving DecidableEq, Repr

/-- Embedding of `ElfinConnectionLinux.GetMotionState` (lines 229–246), as a
function of the reply fields.  `read_robot_state[0]` and
`read_robot_state[2]` are indexed directly: a boolean result of `send`
raises a `TypeError`, a short payload an `IndexError`.  The flags are
obtained with Python `bool(...)` applied to the payload *strings*,
which is true exactly when the string is non-empty. -/
def GetMotionState (reply : List String) : Except String MotionState :=
  match send reply with
  | Except.error e => Except.error e
  | Except.ok (SendRet.pybool _) =>
    Except.error "TypeError: bool is not subscriptable"
  | Except.ok SendRet.pynone =>
    Except.error "TypeError: NoneType is not subscriptable"
  | Except.ok (SendRet.strs l) =>
    match l.get? 0, l.get? 2 with
    | some f0, some f2 =>
      let moving_state := f0 ≠ ""
      let error_state := f2 ≠ ""
      Except.ok (if error_state then MotionState.ERROR
                 else if moving_state then MotionState.IN_MOTION
                 else MotionState.FREE_TO_MOVE)
    | _, _ => Except.error "IndexError"

/-- The tracker-side state relevant to the pose-transform claims
(src/robot/control/coordinates.py): the stored tracker-to-robot
calibration triple `(X, Y, affine)`, `None` until
`SetTrackerToRobotMatrix` is called.  Matrices are 4×4 homogeneous
transforms over ℚ. -/
abbrev Mat4 : Type := Matrix (Fin 4) (Fin 4) ℚ

structure Tracker where
  m_tracker_to_robot : Option (Mat4 × Mat4 × Mat4)

/-- Embedding of `Tracker.transform_matrix_to_robot_space` (coordinates.py lines
65–80).  The first statement unpacks `self.m_tracker_to_robot`; when
the calibration is absent that unpacking raises a `TypeError`.  The
helpers `tr.inverse_matrix` and
`robot_process.transformation_matrix_to_coordinates` live in modules
not under src/ and are passed as function parameters; the result is
wrapped in `Option` to mirror the Python value the caller then
compares against `None` (this function never produces that `None`). -/
def transform_matrix_to_robot_space
    (inverse_matrix : Mat4 → Mat4)
    (matrix_to_coordinates : Mat4 → List ℚ × List ℚ)
    (t : Tracker) (M : Mat4) : Except String (Option (List ℚ)) :=
  match t.m_tracker_to_robot with
  | none => Except.error "TypeError: cannot unpack non-iterable NoneType"
  | some (X, Y, affine) =>
    let M_in_robot_space := Y * M * inverse_matrix X
    let M_affine_in_robot_space := affine * M
    let angles_as_deg := (matrix_to_coordinates M_in_robot_space).2
    let translation := (matrix_to_coordinates M_affine_in_robot_space).1
    Except.ok (some (translation ++ angles_as_deg))

/-- Embedding of `Tracker.transform_pose_to_robot_space` (coordinates.py lines
82–93): builds the homogeneous matrix from the pose (via the
`robot_process.coordinates_to_transformation_matrix` helper, not under
src/, passed as a parameter), transforms it, and falls back to the
input pose only if the transform returned `None` — which it never
does. -/
def transform_pose_to_robot_space
    (inverse_matrix : Mat4 → Mat4)
    (matrix_to_coordinates : Mat4 → List ℚ × List ℚ)
    (coordinates_to_transformation_matrix : List ℚ → List ℚ → Mat4)
    (t : Tracker) (pose : List ℚ) : Except String (List ℚ) :=
  let M := coordinates_to_transformation_matrix (pose.take 3) (pose.drop 3)
  match transform_matrix_to_robot_space inverse_matrix
      matrix_to_coordinates t M with
  | Except.error e => Except.error e
  | Except.ok none => Except.ok pose
  | Except.ok (some p) => Except.ok p

/-- C2 (refuted): with no calibration set, `transform_pose_to_robot_space`
raises the `TypeError` from unpacking `None` instead of returning the
input pose unchanged; shown here at the pose [1,2,3,4,5,6] with any
representative helper functions (the error is raised before they are
used).  The dead `if pose_in_robot_space is None` fallback in the
source shows the spec's behaviour is the intent. -/
theorem transform_pose_missing_calibration_raises :
    transform_pose_to_robot_space (fun m => m) (fun _ => ([0], [0]))
        (fun _ _ => 1) ⟨none⟩ [1, 2, 3, 4, 5, 6] =
      Except.error "TypeError: cannot unpack non-iterable NoneType" ∧
    transform_pose_to_robot_space (fun m => m) (fun _ => ([0], [0]))
        (fun _ _ => 1) ⟨none⟩ [1, 2, 3, 4, 5, 6] ≠
      Except.ok [1, 2, 3, 4, 5, 6] := by
  have h : transform_pose_to_robot_space (fun m => m) (fun _ => ([0], [0]))
      (fun _ _ => 1) ⟨none⟩ [1, 2, 3, 4, 5, 6] =
        Except.error "TypeError: cannot unpack non-iterable NoneType" := rfl
  exact ⟨h, by rw [h]; simp⟩

/-- C8 counterexample: on the 8-field reply
`"1,OK,10.0,20.0,30.0,0,0,0"`, `GetCoordinates` returns the empty
float list — the slice `[6:12]` of the 5-element payload — rather
than the translation (10.0, 20.0, 30.0) with its rotation slice. -/
theorem get_coordinates_short_reply_counterexample :
    GetCoordinates ["1", "OK", "10.0", "20.0", "30.0", "0", "0", "0"] =
      Except.ok (PyRet.floats []) ∧
    GetCoordinates ["1", "OK", "10.0", "20.0", "30.0", "0", "0", "0"] ≠
      Except.ok (PyRet.floats [10, 20, 30, 0, 0, 0]) := by
  have h : GetCoordinates ["1", "OK", "10.0", "20.0", "30.0", "0", "0", "0"]
      = Except.ok (PyRet.floats []) := by
    simp only [GetCoordinates,
      show send ["1", "OK", "10.0", "20.0", "30.0", "0", "0", "0"] =
        Except.ok (SendRet.strs ["10.0", "20.0", "30.0", "0", "0"]) by
          decide]
    norm_num [floatList, parseFloat,
      show parseDecimal "10.0" = some (false, 10, 0, 1) by decide,
      show parseDecimal "20.0" = some (false, 20, 0, 1) by decide,
      show parseDecimal "30.0" = some (false, 30, 0, 1) by decide,
      show parseDecimal "0" = some (false, 0, 0, 0) by decide, Except.map]
    simp
  exact ⟨h, by rw [h]; simp⟩

/-- C8 (amended): `GetCoordinates` keeps payload positions 6–11 (the
payload being the reply minus its first two fields and the trailing
terminator field), so a reply whose payload carries the pose at
positions 6–11 yields translation (10.0, 20.0, 30.0) and rotation
slice (1.0, 2.0, 3.0); the failure reply `"1,Fail,ERR3"` makes the
command wrapper return the failure value `False` without raising. -/
theorem get_coordinates_parsing :
    GetCoordinates ["1", "OK", "0", "0", "0", "0", "0", "0", "10.0",
        "20.0", "30.0", "1.0", "2.0", "3.0", ";"] =
      Except.ok (PyRet.floats [10, 20, 30, 1, 2, 3]) ∧
    GetCoordinates ["1", "Fail", "ERR3"] =
      Except.ok (PyRet.ret (SendRet.pybool false)) := by
  constructor
  · simp only [GetCoordinates,
      show send ["1", "OK", "0", "0", "0", "0", "0", "0", "10.0", "20.0",
          "30.0", "1.0", "2.0", "3.0", ";"] =
        Except.ok (SendRet.strs ["0", "0", "0", "0", "0", "0", "10.0",
          "20.0", "30.0", "1.0", "2.0", "3.0"]) by decide]
    norm_num [floatList, parseFloat,
      show parseDecimal "10.0" = some (false, 10, 0, 1) by decide,
      show parseDecimal "20.0" = some (false, 20, 0, 1) by decide,
      show parseDecimal "30.0" = some (false, 30, 0, 1) by decide,
      show parseDecimal "1.0" = some (false, 1, 0, 1) by decide,
      show parseDecimal "2.0" = some (false, 2, 0, 1) by decide,
      show parseDecimal "3.0" = some (false, 3, 0, 1) by decide,
      show parseDecimal "0" = some (false, 0, 0, 0) by decide, Except.map]
    simp
  · decide

/-- C9 (refuted): on the reply `"1,OK,0,0,0,;"`, where the controller
reports moving = 0 and error = 0 (neither flag set), `GetMotionState`
returns `ERROR` instead of `FREE_TO_MOVE`, because Python
`bool("0")` is `True` for the non-empty string "0"; and on a `Fail`
reply it raises a `TypeError` instead of returning a state at all. -/
theorem get_motion_state_bool_bug :
    GetMotionState ["1", "OK", "0", "0", "0", ";"] =
      Except.ok MotionState.ERROR ∧
    GetMotionState ["1", "OK", "0", "0", "0", ";"] ≠
      Except.ok MotionState.FREE_TO_MOVE ∧
    GetMotionState ["1", "Fail", "ERR1"] =
      Except.error "TypeError: bool is not subscriptable" := by
  refine ⟨by decide, by decide, by decide⟩

/-- C1: when the distance is known and below `cfg['stop_distance']`,
`compute_offset` returns the current brake direction paired with
`stop_now = true`, for every `dt` and every prior smoothed state; the
instance state is returned untouched, so no EMA smoothing and no
raw-offset computation take place. -/
theorem compute_offset_emergency_stop (qexp : ℚ → ℚ) (rf : RepulsionField)
    (d dt sd : ℚ) (hsd : dlookup rf.cfg "stop_distance" = some sd)
    (hlt : d < sd) :
    compute_offset qexp rf (some d) dt =
      Except.ok (rf.brake_direction, true, rf) := by
  simp [compute_offset, hsd, hlt]

theorem compute_offset_emergency_stop_witness :
    dlookup testField.cfg "stop_distance" = some 20 ∧ (10 : ℚ) < 20 ∧
    compute_offset (fun q => q) testField (some 10) (1 / 100) =
      Except.ok (testField.brake_direction, true, testField) :=
  ⟨by decide, by norm_num,
   compute_offset_emergency_stop (fun q => q) testField 10 (1 / 100) 20
     (by decide) (by norm_num)⟩

/-- C10: the emergency-stop branch of `compute_offset` leaves the
stored smoothed-offset state `_ema_offset` unchanged, so a later
non-stop call continues the exponential moving average from the value
held before the stop. -/
theorem compute_offset_stop_preserves_ema (qexp : ℚ → ℚ)
    (rf : RepulsionField) (d dt sd : ℚ)
    (hsd : dlookup rf.cfg "stop_distance" = some sd) (hlt : d < sd) :
    (compute_offset qexp rf (some d) dt).map
      (fun r => r.2.2.ema_offset) = Except.ok rf.ema_offset := by
  simp [compute_offset, hsd, hlt, Except.map]

theorem compute_offset_stop_preserves_ema_witness :
    dlookup testField.cfg "stop_distance" = some 20 ∧ (5 : ℚ) < 20 ∧
    (compute_offset (fun q => q) testField (some 5) 1).map
      (fun r => r.2.2.ema_offset) = Except.ok testField.ema_offset :=
  ⟨by decide, by norm_num,
   compute_offset_stop_preserves_ema (fun q => q) testField 5 1 20
     (by decide) (by norm_num)⟩

/-- C6: the spec's concrete scenario.  With strength 240, safety
margin 65, stop distance 20, ema 0.3, working distance 15, brake
direction (1,0,0) and zero prior smoothed offset, a single call at
distance 50 and dt 0.01 takes the approach zone (magnitude
240·((65−50)/(65−15))² = 21.6, raw offset (0.216, 0, 0)) and returns
the smoothed offset 0.7·(0.216, 0, 0) = (0.1512, 0, 0) with
`stop_now = false`. -/
theorem compute_offset_concrete_scenario (qexp : ℚ → ℚ) :
    compute_offset qexp testField (some 50) (1 / 100) =
      Except.ok (⟨1512 / 10000, 0, 0⟩, false,
        { testField with ema_offset := ⟨1512 / 10000, 0, 0⟩ }) := by
  simp [compute_offset, raw_offset_calc, ema_step, testField, testCfg,
    dlookup, approachMagnitude, workingMagnitude, Except.map,
    Vec3.smul, Vec3.add, Vec3.zero]
  norm_num
